import Mathlib

/-!
# Verification of the asmd VHDL generator (asmd.go)

Shallow embedding of `src/asmd/asmd.go`.  Go maps (`map[string]Variable`)
are modelled as association lists `List (String × Variable)`; Go map
assignment `m[k] = v` is modelled by `mapInsert`, which replaces the first
entry with that key (Go maps have unique keys, so this is exact) or
appends when the key is absent.  Go's map iteration order is unspecified,
so the emitter takes the iteration sequence of each map as an explicit
parameter.  Machine integers (`uint64 BitWidth`) are modelled as `Nat`
(no arithmetic here can overflow: the only operation is `BitWidth - 1`
guarded by `BitWidth > 1`).  Fallible operations return `Except`/`Option`.
-/

namespace Asmd

/-- Embeds Go struct `Variable` (asmd.go lines 34-38).
`BitWidth uint64`, `Type string`, `DefaultValue string`. -/
structure Variable where
  BitWidth : Nat
  «Type» : String
  DefaultValue : String
deriving DecidableEq, Repr

/-- Embeds Go struct `Options` (asmd.go lines 24-32).
`AddAsyncReset *bool` (a nullable boolean) is modelled as `Option Bool`. -/
structure Options where
  ModuleName : String
  trimmedModuleName : String
  ClockType : String
  AddAsyncReset : Option Bool
  FirstState : String
  Indent : String
  Author : String
deriving DecidableEq, Repr

/-- Embeds Go struct `FunctionalUnit` (asmd.go lines 40-45). -/
structure FunctionalUnit where
  Inputs : List (String × Variable)
  Outputs : List (String × Variable)
  Registers : List (String × Variable)
deriving DecidableEq, Repr

/-- Embeds Go struct `StateMachine` (asmd.go lines 13-22).  Each Go map
is modelled as an association list with unique keys. -/
structure StateMachine where
  Options : Options
  Inputs : List (String × Variable)
  Outputs : List (String × Variable)
  Parameters : List (String × Variable)
  Registers : List (String × Variable)
  FunctionalUnits : List (String × FunctionalUnit)
deriving DecidableEq, Repr

/-- Go map assignment `m[k] = v`: replace the (unique) entry with key `k`,
or append a new entry when `k` is absent. -/
def mapInsert (k : String) (v : Variable) : List (String × Variable) → List (String × Variable)
  | [] => [(k, v)]
  | e :: rest => if e.1 = k then (k, v) :: rest else e :: mapInsert k v rest

/-- Go map read `m[k]` (with its presence bit): the value bound to the
(unique) entry with key `k`, if any. -/
def mapLookup (k : String) : List (String × Variable) → Option Variable
  | [] => none
  | e :: rest => if e.1 = k then some e.2 else mapLookup k rest

/-- Embeds Go `strings.ToLower` as used in `Validate` (asmd.go line 77).
ASCII case folding; Go's Unicode folding agrees with this on the ASCII
strings compared against "posedge"/"negedge". -/
def toLower (s : String) : String := String.mk (s.data.map Char.toLower)

/-- Embeds the `strings.NewReplacer(" ", "", "\t", "", "-", "")` fix-up of
the module name (asmd.go lines 101-102): every space, tab and hyphen is
deleted (all patterns are single characters replaced by the empty string,
so the replacer is exactly a character filter). -/
def trimModuleName (s : String) : String :=
  String.mk (s.data.filter (fun c => !(c == ' ' || c == '\t' || c == '-')))

/-- Validation message for an empty module name (asmd.go line 74). -/
def errNoModuleName : String := "No module name specified (m.Options.Modulename)."

/-- Validation message for a bad clock type (asmd.go line 79); the raw
`ClockType` is appended. -/
def errBadClockType (ct : String) : String :=
  "m.Options.ClockType must be \x27negedge\x27 or \x27posedge\x27, not " ++ ct

/-- Validation message for an empty first state (asmd.go line 83). -/
def errNoFirstState : String := "m.Options.FirstState not specified."

/-- Validation message for an empty inputs map (asmd.go line 92). -/
def errNoInputs : String := "No inputs specified."

/-- Embeds Go method `(m *StateMachine) Validate() error` (asmd.go
lines 71-95): four checks in order, first violation returned. -/
def Validate (m : StateMachine) : Except String Unit :=
  if m.Options.ModuleName = "" then
    Except.error errNoModuleName
  else
    let clockType := toLower m.Options.ClockType
    if ¬(clockType = "posedge" ∨ clockType = "negedge") then
      Except.error (errBadClockType m.Options.ClockType)
    else if m.Options.FirstState = "" then
      Except.error errNoFirstState
    else if m.Inputs.length = 0 then
      Except.error errNoInputs
    else
      Except.ok ()

/-- The clock-type invariant as `Validate` checks it: the case-folded
clock type is `"posedge"` or `"negedge"`. -/
def clockTypeOk (m : StateMachine) : Prop :=
  toLower m.Options.ClockType = "posedge" ∨ toLower m.Options.ClockType = "negedge"

instance (m : StateMachine) : Decidable (clockTypeOk m) := by
  unfold clockTypeOk; infer_instance

/-- Embeds Go method `(m *StateMachine) FixUpWithDefaults()` (asmd.go
lines 97-120).  The Go method mutates `m` in place; here it returns the
updated value. -/
def FixUpWithDefaults (m : StateMachine) : StateMachine :=
  let trimmed := trimModuleName m.Options.ModuleName
  let reset : Option Bool :=
    match m.Options.AddAsyncReset with
    | none => some true
    | some b => some b
  let indent := if m.Options.Indent = "" then "    " else m.Options.Indent
  let inputs1 := mapInsert "clk" ⟨1, "", ""⟩ m.Inputs
  let inputs2 := if reset = some true then mapInsert "rst" ⟨1, "", ""⟩ inputs1 else inputs1
  { m with
    Options := { m.Options with
      trimmedModuleName := trimmed
      AddAsyncReset := reset
      Indent := indent }
    Inputs := inputs2 }

/-! ## The emitter (Go method `VHDL`, asmd.go lines 147-281)

Go's `write(file, a, b, c)` performs one `WriteString` per variadic
argument; the emitter is modelled as the ordered list of those string
chunks.  The date chunk `time.Now().Format("2 Jan 2006")` is a parameter
`today`.  The iteration sequences of the `Parameters`, `Inputs`,
`Outputs` maps are parameters `ps`, `is`, `os` (Go leaves map iteration
order unspecified; a run of the program uses some enumeration, i.e. some
permutation, of each map's entries). -/

/-- The effective indent unit: Go method `indent` (asmd.go lines 135-145)
defaults an empty `Options.Indent` to four spaces before repeating it. -/
def indentUnit (m : StateMachine) : String :=
  if m.Options.Indent = "" then "    " else m.Options.Indent

/-- Go method `indent(n)`: the indent unit concatenated `n` times
(the Go loop does `s += indent` n times). -/
def indentOf (unit : String) : Nat → String
  | 0 => ""
  | n + 1 => indentOf unit n ++ unit

/-- The 80-dash banner line written at asmd.go lines 156 and 161. -/
def bannerLine : String :=
  "--------------------------------------------------------------------------------\n"

/-- Header comment chunks (asmd.go lines 155-163). -/
def headerChunks (m : StateMachine) (today : String) : List String :=
  ["\n", bannerLine,
   "-- Module Name: ", m.Options.ModuleName, "\n",
   "-- Author:      ", m.Options.Author, "\n",
   "-- Date:        ", today, "\n",
   "--\n", bannerLine, "\n", "\n"]

/-- Library / use chunks (asmd.go lines 167-170). -/
def libraryChunks : List String :=
  ["library IEEE;\n", "use IEEE.STD_LOGIC_1164.ALL;\n", "use IEEE.NUMERIC_STD.ALL;\n", "\n"]

/-- The per-entry payload of a generic clause entry (asmd.go line 188):
`name`, `": "`, the `Type` field verbatim, `" := "`, the `DefaultValue`
field verbatim.  Note `BitWidth` is not consulted here. -/
def genericEntryBody (e : String × Variable) : List String :=
  [e.1, ": ", e.2.«Type», " := ", e.2.DefaultValue]

/-- One generic clause entry (asmd.go lines 181-189): indent, the
first-entry marker `"  "` or the separator `"; "`, the payload, newline. -/
def genericEntryChunks (unit : String) (first : Bool) (e : String × Variable) : List String :=
  indentOf unit 2 :: (if first then "  " else "; ") :: (genericEntryBody e ++ ["\n"])

/-- The `for name, properties := range m.Parameters` loop (asmd.go
lines 180-190), iterating in the order of `ps` with the `isFirst` flag. -/
def genericLoop (unit : String) : List (String × Variable) → Bool → List String
  | [], _ => []
  | e :: rest, first => genericEntryChunks unit first e ++ genericLoop unit rest false

/-- Generic clause (asmd.go lines 177-192): emitted only when the
`Parameters` map is non-empty; the loop iterates in map order `ps`. -/
def genericSection (m : StateMachine) (ps : List (String × Variable)) : List String :=
  if 0 < m.Parameters.length then
    [indentOf (indentUnit m) 1, "generic (\n"]
      ++ genericLoop (indentUnit m) ps true
      ++ [indentOf (indentUnit m) 1, ");\n"]
  else []

/-- The per-entry payload of a port entry (asmd.go lines 208-212 for
inputs, 226-230 for outputs): `name`, `" : in std_logic"` (resp. `out`),
and, when `BitWidth > 1`, the vector suffix chunks
`"_vector ("`, `W-1` in decimal, `" downto 0)"`. -/
def portEntryBody (dir : String) (e : String × Variable) : List String :=
  e.1 :: (" : " ++ dir ++ " std_logic")
    :: (if 1 < e.2.BitWidth then ["_vector (", toString (e.2.BitWidth - 1), " downto 0)"] else [])

/-- One port entry: indent, first-entry marker or separator, payload,
newline (asmd.go lines 200-213 / 218-231). -/
def portEntryChunks (unit dir : String) (first : Bool) (e : String × Variable) : List String :=
  indentOf unit 2 :: (if first then "  " else "; ") :: (portEntryBody dir e ++ ["\n"])

/-- A `for name, properties := range` port loop, iterating in the given
order, threading the `isFirst` flag. -/
def portLoop (unit dir : String) : List (String × Variable) → Bool → List String
  | [], _ => []
  | e :: rest, first => portEntryChunks unit dir first e ++ portLoop unit dir rest false

/-- Port clause (asmd.go lines 194-234): emitted when `Inputs` or
`Outputs` is non-empty; inputs first, then outputs continuing the same
list — `isFirst` is not reset, so the outputs loop starts with
`first = true` exactly when the inputs iteration was empty. -/
def portSection (m : StateMachine) (is os : List (String × Variable)) : List String :=
  if 0 < m.Inputs.length ∨ 0 < m.Outputs.length then
    [indentOf (indentUnit m) 1, "port (\n"]
      ++ portLoop (indentUnit m) "in" is true
      ++ portLoop (indentUnit m) "out" os is.isEmpty
      ++ [indentOf (indentUnit m) 1, ");\n"]
  else []

/-- Chunks from the entity close through the start of the register
process, ending with the reset assignment (asmd.go lines 237-264).
Written before the clock-type dispatch; note the process header
`process(clk, rst)` and the `if (rst='1')` branch are unconditional. -/
def archPreChunks (m : StateMachine) : List String :=
  let unit := indentUnit m
  ["end ", m.Options.trimmedModuleName, ";\n", "\n",
   "architecture Behavioral of ", m.Options.trimmedModuleName, " is\n",
   indentOf unit 1, "-- FSM declarations\n",
   indentOf unit 1, "type state is (", ");\n",
   indentOf unit 1, "signal state_reg, state_next : state := ", m.Options.FirstState, ";\n",
   "begin\n",
   indentOf unit 1, "-- FSM state register\n",
   indentOf unit 1, "process(clk, rst)\n",
   indentOf unit 1, "begin\n",
   indentOf unit 2, "if (rst=\x271\x27) then\n",
   indentOf unit 3, "state_reg <= ", m.Options.FirstState, ";\n"]

/-- Chunks after the clock-edge line (asmd.go lines 272-279). -/
def regTailChunks (m : StateMachine) : List String :=
  let unit := indentUnit m
  [indentOf unit 3, "state_reg <= state_next;\n",
   indentOf unit 2, "end if;\n",
   indentOf unit 1, "end process;\n",
   "end Behavioral;\n", "\n"]

/-- Embeds Go method `(m *StateMachine) VHDL(filename string) error`
(asmd.go lines 147-281): the ordered list of string chunks written, and
the returned error (`none` on success).  Writes are incremental in Go,
so on the unrecognized-clock-type path (lines 269-271) the chunks before
the dispatch have already been written and the error is returned.  Note
the dispatch compares `m.Options.ClockType` case-SENSITIVELY. -/
def vhdlWrites (m : StateMachine) (today : String)
    (ps is os : List (String × Variable)) : List String × Option String :=
  let unit := indentUnit m
  let pre := headerChunks m today ++ libraryChunks
    ++ ["entity ", m.Options.trimmedModuleName, " is\n"]
    ++ genericSection m ps ++ portSection m is os
    ++ archPreChunks m
  if m.Options.ClockType = "posedge" then
    (pre ++ [indentOf unit 2, "elsif (clk\x27event and clk=\x271\x27) then\n"] ++ regTailChunks m, none)
  else if m.Options.ClockType = "negedge" then
    (pre ++ [indentOf unit 2, "elsif (clk\x27event and clk=\x270\x27) then\n"] ++ regTailChunks m, none)
  else
    (pre, some ("Unrecognized clock type: " ++ m.Options.ClockType))

/-- The joined text of one generic clause entry, as it appears in the
output stream. -/
def genericEntryText (unit : String) (first : Bool) (e : String × Variable) : String :=
  String.join (genericEntryChunks unit first e)

/-- Modelled from the spec's words for comparison with the code: the
vector-range text `(W-1 downto 0)` that a width-`W` variable's rendered
type is claimed to carry when `W > 1`. -/
def vectorRange (w : Nat) : String := "(" ++ toString (w - 1) ++ " downto 0)"

/-! ## Running the emitter against a fallible sink

Go's `write` helper (asmd.go lines 122-133) checks each `WriteString`
call: a returned error or a short write makes it `panic`, aborting the
render non-locally — it never returns the failure as a value. -/

/-- Result of one underlying sink write: success, an I/O error, or a
short write (fewer bytes written than requested). -/
inductive WriteRes
  | ok
  | ioError
  | short
deriving DecidableEq, Repr

/-- Outcome of a render run: either a panic (with the chunks fully
written before the failing write), or normal termination of `VHDL`
(with all chunks written and the returned error value). -/
inductive RunResult
  | panicked (written : List String)
  | finished (written : List String) (err : Option String)
deriving DecidableEq, Repr

/-- Whether a run terminated normally (by returning from `VHDL`). -/
def RunResult.isFinished : RunResult → Bool
  | .panicked _ => false
  | .finished _ _ => true

/-- Attempt the chunks in order against the sink (`sink i` is the result
of the i-th `WriteString`); stops at the first non-ok write, which is
Go's `panic` in `write` (asmd.go lines 126-131).  Returns the chunks
written before the failure and whether a panic occurred. -/
def runChunks (sink : Nat → WriteRes) : List String → Nat → List String × Bool
  | [], _ => ([], false)
  | s :: rest, i =>
    match sink i with
    | .ok => let r := runChunks sink rest (i + 1); (s :: r.1, r.2)
    | _ => ([], true)

/-- A full render run of `VHDL` against a fallible sink. -/
def runVHDL (m : StateMachine) (today : String)
    (ps is os : List (String × Variable)) (sink : Nat → WriteRes) : RunResult :=
  let out := vhdlWrites m today ps is os
  let r := runChunks sink out.1 0
  if r.2 then .panicked r.1 else .finished r.1 out.2

/-! ## Concrete instances used by witnesses and counterexamples -/

/-- Spec §8 scenario A: `{ModuleName:"Counter", ClockType:"posedge",
FirstState:"S0", Inputs:{"en":{BitWidth:1}}}`, reset unset. -/
def mScenarioA : StateMachine :=
  { Options := { ModuleName := "Counter", trimmedModuleName := "", ClockType := "posedge",
                 AddAsyncReset := none, FirstState := "S0", Indent := "", Author := "" },
    Inputs := [("en", ⟨1, "", ""⟩)], Outputs := [], Parameters := [], Registers := [],
    FunctionalUnits := [] }

/-- Scenario A after normalization. -/
def mScenarioAF : StateMachine := FixUpWithDefaults mScenarioA

/-- Spec §8 scenario B: scenario A with `AddAsyncReset` explicitly false. -/
def mScenarioB : StateMachine :=
  { mScenarioA with Options := { mScenarioA.Options with AddAsyncReset := some false } }

/-- Scenario B after normalization. -/
def mScenarioBF : StateMachine := FixUpWithDefaults mScenarioB

/-- Scenario A with mixed-case clock type `"PosEdge"`. -/
def mClockCase : StateMachine :=
  { mScenarioA with Options := { mScenarioA.Options with ClockType := "PosEdge" } }

/-- Mixed-case-clock model after normalization. -/
def mClockCaseF : StateMachine := FixUpWithDefaults mClockCase

/-- Scenario A extended with two generic parameters. -/
def mTwoParams : StateMachine :=
  { mScenarioA with Parameters := [("AA", ⟨1, "integer", "0"⟩), ("BB", ⟨1, "integer", "1"⟩)] }

/-- Two-parameter model after normalization. -/
def mTwoParamsF : StateMachine := FixUpWithDefaults mTwoParams

/-- Scenario A with the module name left empty. -/
def mEmptyName : StateMachine :=
  { mScenarioA with Options := { mScenarioA.Options with ModuleName := "" } }

/-- Scenario A with user-declared `clk` and `rst` inputs carrying
non-default width, type and default value. -/
def mUserClk : StateMachine :=
  { mScenarioA with Inputs := [("clk", ⟨8, "natural", "42"⟩), ("rst", ⟨4, "signed", "7"⟩)] }

/-- A sink on which every write reports an I/O error. -/
def sinkFailAll : Nat → WriteRes := fun _ => WriteRes.ioError

/-- A sink whose third write (index 2) is a short write; all others succeed. -/
def sinkFailAt2 : Nat → WriteRes := fun i => if i = 2 then WriteRes.short else WriteRes.ok

/-! ## Helper lemmas about the Go-map model -/

/-- After `m[k] = v`, looking up `k` yields `v`. -/
theorem mapLookup_mapInsert_self (k : String) (v : Variable) (l : List (String × Variable)) :
    mapLookup k (mapInsert k v l) = some v := by
  induction l with
  | nil => simp [mapInsert, mapLookup]
  | cons e rest ih =>
    by_cases h : e.1 = k
    · simp [mapInsert, h, mapLookup]
    · simp [mapInsert, h, mapLookup, ih]

/-- `m[k] = v` does not disturb lookups of other keys. -/
theorem mapLookup_mapInsert_ne (k k' : String) (v : Variable) (l : List (String × Variable))
    (h : k' ≠ k) : mapLookup k' (mapInsert k v l) = mapLookup k' l := by
  induction l with
  | nil => simp [mapInsert, mapLookup, Ne.symm h]
  | cons e rest ih =>
    by_cases he : e.1 = k
    · rw [mapInsert, if_pos he, mapLookup, if_neg (Ne.symm h), mapLookup,
        if_neg (he ▸ Ne.symm h)]
    · rw [mapInsert, if_neg he, mapLookup, mapLookup, ih]

/-- Inserting the same binding twice is the same as inserting it once. -/
theorem mapInsert_idem (k : String) (v : Variable) (l : List (String × Variable)) :
    mapInsert k v (mapInsert k v l) = mapInsert k v l := by
  induction l with
  | nil => simp [mapInsert]
  | cons e rest ih =>
    by_cases he : e.1 = k
    · simp [mapInsert, he]
    · simp [mapInsert, he, ih]

/-- If the map already binds `k` to `v`, inserting `(k, v)` is a no-op. -/
theorem mapInsert_of_mapLookup_self (k : String) (v : Variable) (l : List (String × Variable))
    (h : mapLookup k l = some v) : mapInsert k v l = l := by
  induction l with
  | nil => simp [mapLookup] at h
  | cons e rest ih =>
    obtain ⟨k', v'⟩ := e
    by_cases he : k' = k
    · subst he
      simp [mapLookup] at h
      simp [mapInsert, h]
    · simp [mapLookup, he] at h
      simp [mapInsert, he, ih h]

/-- Running the chunks against a sink whose first failure is the write
at absolute index `i + k` stops there: exactly the first `k` chunks are
written, and the run panics. -/
theorem runChunks_first_fail (sink : Nat → WriteRes) (l : List String) (i k : Nat)
    (hk : k < l.length) (hfail : sink (i + k) ≠ WriteRes.ok)
    (hok : ∀ j, j < k → sink (i + j) = WriteRes.ok) :
    runChunks sink l i = (l.take k, true) := by
  induction l generalizing i k with
  | nil => simp at hk
  | cons s rest ih =>
    match k with
    | 0 =>
      have h0 : sink i ≠ WriteRes.ok := by simpa using hfail
      rw [runChunks]
      cases hs : sink i with
      | ok => exact absurd hs h0
      | ioError => simp
      | short => simp
    | k' + 1 =>
      have h0 : sink i = WriteRes.ok := by
        have := hok 0 (Nat.succ_pos k'); simpa using this
      rw [runChunks, h0]
      have hrec := ih (i + 1) k' (by simpa using hk)
        (by have := hfail; simpa [Nat.add_assoc, Nat.add_comm 1 k'] using this)
        (fun j hj => by
          have := hok (j + 1) (Nat.succ_lt_succ hj)
          simpa [Nat.add_assoc, Nat.add_comm 1 j] using this)
      simp [hrec]

/-- Inserting `clk` on top of a map that was just given `clk` (possibly
followed by `rst`) is a no-op: the binding is already there. -/
theorem mapInsert_clk_rst_clk (l : List (String × Variable)) :
    mapInsert "clk" ⟨1, "", ""⟩ (mapInsert "rst" ⟨1, "", ""⟩ (mapInsert "clk" ⟨1, "", ""⟩ l))
      = mapInsert "rst" ⟨1, "", ""⟩ (mapInsert "clk" ⟨1, "", ""⟩ l) :=
  mapInsert_of_mapLookup_self _ _ _
    (by rw [mapLookup_mapInsert_ne _ _ _ _ (by decide), mapLookup_mapInsert_self])

/-! ## Claim theorems -/

/-- C6: normalization is idempotent — applying `FixUpWithDefaults` twice
yields exactly the same `StateMachine` (same `Inputs` map: no duplicate
`clk`/`rst`, unchanged widths; same `trimmedModuleName`, `AddAsyncReset`,
`Indent`) as applying it once. -/
theorem C6_fixup_idempotent (m : StateMachine) :
    FixUpWithDefaults (FixUpWithDefaults m) = FixUpWithDefaults m := by
  obtain ⟨⟨mn, tmn, ct, ar, fs, ind, au⟩, ins, outs, ps, regs, fus⟩ := m
  cases ar with
  | none =>
    by_cases hind : ind = "" <;>
      simp [FixUpWithDefaults, hind, mapInsert_clk_rst_clk, mapInsert_idem]
  | some b =>
    cases b <;> by_cases hind : ind = "" <;>
      simp [FixUpWithDefaults, hind, mapInsert_clk_rst_clk, mapInsert_idem]

/-- C7: with `AddAsyncReset` unset, normalization resolves it to enabled
(`some true`) and injects a width-1 `rst` input; with `AddAsyncReset`
explicitly disabled, normalization leaves the `rst` binding of `Inputs`
exactly as it was (in particular it never adds one). -/
theorem C7_reset_resolution (m : StateMachine) :
    (m.Options.AddAsyncReset = none →
      (FixUpWithDefaults m).Options.AddAsyncReset = some true ∧
      mapLookup "rst" (FixUpWithDefaults m).Inputs = some ⟨1, "", ""⟩) ∧
    (m.Options.AddAsyncReset = some false →
      mapLookup "rst" (FixUpWithDefaults m).Inputs = mapLookup "rst" m.Inputs) := by
  constructor
  · intro h
    constructor
    · simp [FixUpWithDefaults, h]
    · simp [FixUpWithDefaults, h, mapLookup_mapInsert_self]
  · intro h
    simp only [FixUpWithDefaults, h]
    rw [if_neg (by simp)]
    exact mapLookup_mapInsert_ne "clk" "rst" _ _ (by decide)

/-- C7 witness: scenario A (reset unset) gains `rst` of width 1 and the
resolved flag; scenario B (reset disabled) has its `rst` binding
untouched. -/
theorem C7_witness :
    ((FixUpWithDefaults mScenarioA).Options.AddAsyncReset = some true ∧
      mapLookup "rst" (FixUpWithDefaults mScenarioA).Inputs = some ⟨1, "", ""⟩) ∧
    mapLookup "rst" (FixUpWithDefaults mScenarioB).Inputs = mapLookup "rst" mScenarioB.Inputs :=
  ⟨(C7_reset_resolution mScenarioA).1 rfl, (C7_reset_resolution mScenarioB).2 rfl⟩

/-- C10: normalization unconditionally overwrites any user-declared
`clk` input — and, whenever reset resolves to enabled, any user-declared
`rst` input — with the width-1, empty-type, empty-default variable,
discarding the user-declared properties. -/
theorem C10_injected_signals_overwrite (m : StateMachine) (v : Variable) :
    (mapLookup "clk" m.Inputs = some v →
      mapLookup "clk" (FixUpWithDefaults m).Inputs = some ⟨1, "", ""⟩) ∧
    (m.Options.AddAsyncReset ≠ some false → mapLookup "rst" m.Inputs = some v →
      mapLookup "rst" (FixUpWithDefaults m).Inputs = some ⟨1, "", ""⟩) := by
  have hclk : ∀ l : List (String × Variable),
      mapLookup "clk" (mapInsert "rst" ⟨1, "", ""⟩ (mapInsert "clk" ⟨1, "", ""⟩ l))
        = some ⟨1, "", ""⟩ := fun l => by
    rw [mapLookup_mapInsert_ne _ _ _ _ (by decide), mapLookup_mapInsert_self]
  constructor
  · intro _
    rcases har : m.Options.AddAsyncReset with _ | b
    · simp [FixUpWithDefaults, har, hclk]
    · cases b
      · simp [FixUpWithDefaults, har, mapLookup_mapInsert_self]
      · simp [FixUpWithDefaults, har, hclk]
  · intro hr _
    rcases har : m.Options.AddAsyncReset with _ | b
    · simp [FixUpWithDefaults, har, mapLookup_mapInsert_self]
    · cases b
      · exact absurd har hr
      · simp [FixUpWithDefaults, har, mapLookup_mapInsert_self]

/-- C10 witness: a model declaring `clk` as ⟨8, "natural", "42"⟩ and
`rst` as ⟨4, "signed", "7"⟩ has both overwritten with ⟨1, "", ""⟩. -/
theorem C10_witness :
    mapLookup "clk" (FixUpWithDefaults mUserClk).Inputs = some ⟨1, "", ""⟩ ∧
    mapLookup "rst" (FixUpWithDefaults mUserClk).Inputs = some ⟨1, "", ""⟩ :=
  ⟨(C10_injected_signals_overwrite mUserClk ⟨8, "natural", "42"⟩).1 (by decide),
   (C10_injected_signals_overwrite mUserClk ⟨4, "signed", "7"⟩).2 (by decide) (by decide)⟩

/-- The bad-clock-type message is longer than each of the three constant
validation messages, whatever the appended clock type. -/
theorem errBadClockType_length (ct : String) :
    (errBadClockType ct).length = 56 + ct.length := by
  rw [errBadClockType, String.length_append,
    show ("m.Options.ClockType must be \x27negedge\x27 or \x27posedge\x27, not ").length = 56
      from by decide]

/-- C8: `Validate` checks its four invariants in a fixed order and
returns the first violation, each case with its own distinct message
(`errNoModuleName`, then `errBadClockType`, then `errNoFirstState`, then
`errNoInputs`); it succeeds exactly when none of the four conditions
holds.  Errors are not accumulated: the result is a single
`Except.error` with one message. -/
theorem C8_validate_first_error (m : StateMachine) :
    (m.Options.ModuleName = "" → Validate m = Except.error errNoModuleName) ∧
    (m.Options.ModuleName ≠ "" → ¬ clockTypeOk m →
      Validate m = Except.error (errBadClockType m.Options.ClockType)) ∧
    (m.Options.ModuleName ≠ "" → clockTypeOk m → m.Options.FirstState = "" →
      Validate m = Except.error errNoFirstState) ∧
    (m.Options.ModuleName ≠ "" → clockTypeOk m → m.Options.FirstState ≠ "" →
      m.Inputs = [] → Validate m = Except.error errNoInputs) ∧
    (Validate m = Except.ok () ↔
      (m.Options.ModuleName ≠ "" ∧ clockTypeOk m ∧ m.Options.FirstState ≠ "" ∧
        m.Inputs ≠ [])) ∧
    (errNoModuleName ≠ errBadClockType m.Options.ClockType ∧
      errNoModuleName ≠ errNoFirstState ∧ errNoModuleName ≠ errNoInputs ∧
      errBadClockType m.Options.ClockType ≠ errNoFirstState ∧
      errBadClockType m.Options.ClockType ≠ errNoInputs ∧
      errNoFirstState ≠ errNoInputs) := by
  have hclock : ∀ h2 : clockTypeOk m,
      ¬¬(toLower m.Options.ClockType = "posedge" ∨ toLower m.Options.ClockType = "negedge") :=
    fun h2 => not_not_intro h2
  refine ⟨?_, ?_, ?_, ?_, ?_, ?_, ?_, ?_, ?_, ?_, ?_⟩
  · intro h
    simp only [Validate]
    rw [if_pos h]
  · intro h1 h2
    have h2x : ¬(toLower m.Options.ClockType = "posedge" ∨ toLower m.Options.ClockType = "negedge") := h2
    simp only [Validate]
    rw [if_neg h1, if_pos h2x]
  · intro h1 h2 h3
    simp only [Validate]
    rw [if_neg h1, if_neg (hclock h2), if_pos h3]
  · intro h1 h2 h3 h4
    simp only [Validate]
    rw [if_neg h1, if_neg (hclock h2), if_neg h3, if_pos (by simp [h4])]
  · simp only [Validate]
    split_ifs with h1 h2 h3 h4 <;>
      simp_all [clockTypeOk, not_or, List.length_eq_zero]
  · intro h
    have := congrArg String.length h
    rw [errBadClockType_length, show errNoModuleName.length = 48 from by decide] at this
    omega
  · decide
  · decide
  · intro h
    have := congrArg String.length h
    rw [errBadClockType_length, show errNoFirstState.length = 35 from by decide] at this
    omega
  · intro h
    have := congrArg String.length h
    rw [errBadClockType_length, show errNoInputs.length = 20 from by decide] at this
    omega
  · decide

/-- C8 witness: the empty-name model yields the module-name error; the
well-formed scenario-A model validates successfully. -/
theorem C8_witness :
    Validate mEmptyName = Except.error errNoModuleName ∧
    Validate mScenarioA = Except.ok () :=
  ⟨(C8_validate_first_error mEmptyName).1 rfl,
   (C8_validate_first_error mScenarioA).2.2.2.2.1.mpr
     ⟨by decide, Or.inl (by decide), by decide, by decide⟩⟩

/-- C9: the generic clause chunks are non-empty exactly when the
`Parameters` map is non-empty, the port clause chunks are non-empty
exactly when `Inputs` or `Outputs` is non-empty, and the emitted output
of `VHDL` contains the two (possibly empty) clauses contiguously between
a prefix and a suffix — so each clause appears in the rendered output
precisely when its map is non-empty. -/
theorem C9_clause_emission (m : StateMachine) (today : String)
    (ps is os : List (String × Variable)) :
    (genericSection m ps ≠ [] ↔ m.Parameters ≠ []) ∧
    (portSection m is os ≠ [] ↔ (m.Inputs ≠ [] ∨ m.Outputs ≠ [])) ∧
    ∃ a b, (vhdlWrites m today ps is os).1
      = a ++ genericSection m ps ++ portSection m is os ++ b := by
  refine ⟨?_, ?_, ?_⟩
  · constructor
    · intro hne
      by_contra hp
      exact hne (by rw [genericSection, if_neg (by simp [hp])])
    · intro hp
      rw [genericSection, if_pos (List.length_pos.mpr hp)]
      simp
  · constructor
    · intro hne
      by_contra hio
      rw [not_or, not_ne_iff, not_ne_iff] at hio
      exact hne (by rw [portSection, if_neg (by simp [hio.1, hio.2])])
    · intro hio
      have hpos : 0 < m.Inputs.length ∨ 0 < m.Outputs.length := by
        rcases hio with h | h
        exacts [Or.inl (List.length_pos.mpr h), Or.inr (List.length_pos.mpr h)]
      rw [portSection, if_pos hpos]
      simp
  · simp only [vhdlWrites]
    split_ifs with h1 h2
    · exact ⟨headerChunks m today ++ libraryChunks
        ++ ["entity ", m.Options.trimmedModuleName, " is\n"],
        archPreChunks m
          ++ [indentOf (indentUnit m) 2, "elsif (clk\x27event and clk=\x271\x27) then\n"]
          ++ regTailChunks m,
        by simp⟩
    · exact ⟨headerChunks m today ++ libraryChunks
        ++ ["entity ", m.Options.trimmedModuleName, " is\n"],
        archPreChunks m
          ++ [indentOf (indentUnit m) 2, "elsif (clk\x27event and clk=\x270\x27) then\n"]
          ++ regTailChunks m,
        by simp⟩
    · exact ⟨headerChunks m today ++ libraryChunks
        ++ ["entity ", m.Options.trimmedModuleName, " is\n"],
        archPreChunks m,
        by simp⟩

/-- C5 (amended): a variable rendered as a port gets the scalar type
`std_logic` when `BitWidth ≤ 1` and the vector form
`std_logic_vector (W-1 downto 0)` when `BitWidth = W > 1`; a variable
rendered as a generic has its `Type` field rendered verbatim and its
`BitWidth` ignored entirely (no scalar/vector selection for generics). -/
theorem C5_port_vector_generic_verbatim (unit dir name : String) (p : Variable) (first : Bool) :
    (p.BitWidth ≤ 1 →
      portEntryChunks unit dir first (name, p)
        = [indentOf unit 2, if first then "  " else "; ", name,
           " : " ++ dir ++ " std_logic", "\n"]) ∧
    (1 < p.BitWidth →
      portEntryChunks unit dir first (name, p)
        = [indentOf unit 2, if first then "  " else "; ", name,
           " : " ++ dir ++ " std_logic", "_vector (", toString (p.BitWidth - 1),
           " downto 0)", "\n"]) ∧
    (genericEntryChunks unit first (name, p)
        = [indentOf unit 2, if first then "  " else "; ", name, ": ", p.«Type»,
           " := ", p.DefaultValue, "\n"]) ∧
    (∀ w : Nat, genericEntryChunks unit first (name, ⟨w, p.«Type», p.DefaultValue⟩)
        = genericEntryChunks unit first (name, p)) := by
  refine ⟨?_, ?_, rfl, fun w => rfl⟩
  · intro h
    simp [portEntryChunks, portEntryBody, Nat.not_lt.mpr h]
  · intro h
    simp [portEntryChunks, portEntryBody, h]

/-- C5 witness: a width-1 input port renders scalar, a width-8 output
port renders with the `(7 downto 0)` vector suffix. -/
theorem C5_witness :
    portEntryChunks "    " "in" true ("en", ⟨1, "", ""⟩)
      = [indentOf "    " 2, "  ", "en", " : in std_logic", "\n"] ∧
    portEntryChunks "    " "out" false ("data", ⟨8, "", ""⟩)
      = [indentOf "    " 2, "; ", "data", " : out std_logic", "_vector (", "7",
         " downto 0)", "\n"] :=
  ⟨(C5_port_vector_generic_verbatim "    " "in" "en" ⟨1, "", ""⟩ true).1 (by decide),
   (C5_port_vector_generic_verbatim "    " "out" "data" ⟨8, "", ""⟩ false).2.1 (by decide)⟩

/-- C5 counterexample: a generic of width 8 does not carry the
`(7 downto 0)` vector range anywhere in its rendered entry — the
claim's port-or-generic universal fails at the generic `WIDTH`. -/
theorem C5_counterexample :
    ¬ ∀ (name : String) (p : Variable) (first : Bool), 1 < p.BitWidth →
        ((vectorRange p.BitWidth).data <:+: (genericEntryText "    " first (name, p)).data) := by
  intro h
  exact absurd (h "WIDTH" ⟨8, "integer", "8"⟩ true (by decide)) (by decide)

/-- C4 counterexample: one normalized model, two runs that differ only
in the (unspecified) iteration order of the same `Parameters` map —
the second order is a permutation of the first — produce different
output chunk sequences. -/
theorem C4_counterexample :
    mTwoParamsF.Parameters.reverse.Perm mTwoParamsF.Parameters ∧
    (vhdlWrites mTwoParamsF "2 Jan 2006" mTwoParamsF.Parameters
        mTwoParamsF.Inputs mTwoParamsF.Outputs).1
      ≠ (vhdlWrites mTwoParamsF "2 Jan 2006" mTwoParamsF.Parameters.reverse
          mTwoParamsF.Inputs mTwoParamsF.Outputs).1 := by
  exact ⟨by decide, by decide⟩

/-- C4 (amended): the emitter is a pure function of the model together
with the iteration orders, and two enumeration orders that are
permutations of the same map render the same entry payloads up to
permutation — only their sequence (and the first-entry separator
placement) follows the unspecified map order, so byte-identical output
is only guaranteed for a fixed iteration order. -/
theorem C4_order_dependence (ps qs : List (String × Variable)) (h : ps.Perm qs) (dir : String) :
    (ps.map genericEntryBody).Perm (qs.map genericEntryBody) ∧
    (ps.map (portEntryBody dir)).Perm (qs.map (portEntryBody dir)) :=
  ⟨h.map _, h.map _⟩

/-- C4 witness: the two-parameter map under its two enumeration orders
yields permutation-equal generic and port entry payload lists. -/
theorem C4_witness :
    mTwoParams.Parameters.Perm mTwoParams.Parameters.reverse ∧
    ((mTwoParams.Parameters.map genericEntryBody).Perm
        (mTwoParams.Parameters.reverse.map genericEntryBody) ∧
      (mTwoParams.Parameters.map (portEntryBody "in")).Perm
        (mTwoParams.Parameters.reverse.map (portEntryBody "in"))) :=
  ⟨by decide, C4_order_dependence _ _ (by decide) "in"⟩

/-- C3 (amended): if some underlying write fails (I/O error or short
write) — the first failure being the k-th write — the render aborts at
that write by panicking: exactly the chunks before the failing write
have been emitted, nothing later is written, and `VHDL` does not return
at all — neither a success nor an error value. -/
theorem C3_write_failure_aborts (m : StateMachine) (today : String)
    (ps is os : List (String × Variable)) (sink : Nat → WriteRes) (k : Nat)
    (hk : k < (vhdlWrites m today ps is os).1.length)
    (hfail : sink k ≠ WriteRes.ok)
    (hok : ∀ j, j < k → sink j = WriteRes.ok) :
    runVHDL m today ps is os sink
      = RunResult.panicked ((vhdlWrites m today ps is os).1.take k) := by
  simp only [runVHDL]
  rw [runChunks_first_fail sink _ 0 k hk (by simpa using hfail)
    (fun j hj => by simpa using hok j hj)]
  simp

/-- C3 witness: on scenario A with a sink whose third write is short,
the run panics having written exactly the first two chunks. -/
theorem C3_witness :
    (2 < (vhdlWrites mScenarioAF "2 Jan 2006" mScenarioAF.Parameters
        mScenarioAF.Inputs mScenarioAF.Outputs).1.length ∧
      sinkFailAt2 2 ≠ WriteRes.ok ∧ ∀ j, j < 2 → sinkFailAt2 j = WriteRes.ok) ∧
    runVHDL mScenarioAF "2 Jan 2006" mScenarioAF.Parameters
        mScenarioAF.Inputs mScenarioAF.Outputs sinkFailAt2
      = RunResult.panicked ((vhdlWrites mScenarioAF "2 Jan 2006" mScenarioAF.Parameters
          mScenarioAF.Inputs mScenarioAF.Outputs).1.take 2) :=
  ⟨⟨by decide, by decide, by decide⟩,
   C3_write_failure_aborts mScenarioAF "2 Jan 2006" mScenarioAF.Parameters
     mScenarioAF.Inputs mScenarioAF.Outputs sinkFailAt2 2 (by decide) (by decide) (by decide)⟩

/-- C3 counterexample: with a sink failing on the very first write,
scenario A's render run is not a normal return at all — `VHDL` panics
before returning, so no I/O error value (and no result whatsoever) is
returned to the caller, contrary to the claim. -/
theorem C3_counterexample :
    sinkFailAll 0 ≠ WriteRes.ok ∧
    (runVHDL mScenarioAF "2 Jan 2006" mScenarioAF.Parameters
        mScenarioAF.Inputs mScenarioAF.Outputs sinkFailAll).isFinished = false ∧
    runVHDL mScenarioAF "2 Jan 2006" mScenarioAF.Parameters
        mScenarioAF.Inputs mScenarioAF.Outputs sinkFailAll
      = RunResult.panicked [] :=
  ⟨by decide, by decide, by decide⟩

/-- C1 (code bug): scenario B — validation passes and `AddAsyncReset`
is explicitly false, so the normalized `Inputs` has no `rst` port — yet
the rendered register process is still sensitive to `rst`
(`process(clk, rst)`) and still contains the reset branch
(`if (rst='1') then` guarding the reset assignment), contradicting the
claim that the branch is omitted and the sensitivity is `clk` only. -/
theorem C1_reset_branch_always_emitted :
    Validate mScenarioB = Except.ok () ∧
    mScenarioB.Options.AddAsyncReset = some false ∧
    mapLookup "rst" mScenarioBF.Inputs = none ∧
    "process(clk, rst)\n" ∈ (vhdlWrites mScenarioBF "2 Jan 2006" mScenarioBF.Parameters
        mScenarioBF.Inputs mScenarioBF.Outputs).1 ∧
    "if (rst=\x271\x27) then\n" ∈ (vhdlWrites mScenarioBF "2 Jan 2006" mScenarioBF.Parameters
        mScenarioBF.Inputs mScenarioBF.Outputs).1 :=
  ⟨rfl, rfl, by decide, by decide, by decide⟩

/-- C2 (code bug): `ClockType = "PosEdge"` case-folds to `"posedge"`
and passes `Validate` (which folds before comparing), but `VHDL`
compares the raw string case-sensitively: it returns the
unrecognized-clock-type error and never emits the rising-edge branch. -/
theorem C2_case_folding_not_honored_by_render :
    toLower mClockCase.Options.ClockType = "posedge" ∧
    Validate mClockCase = Except.ok () ∧
    (vhdlWrites mClockCaseF "2 Jan 2006" mClockCaseF.Parameters
        mClockCaseF.Inputs mClockCaseF.Outputs).2
      = some "Unrecognized clock type: PosEdge" ∧
    "elsif (clk\x27event and clk=\x271\x27) then\n"
      ∉ (vhdlWrites mClockCaseF "2 Jan 2006" mClockCaseF.Parameters
          mClockCaseF.Inputs mClockCaseF.Outputs).1 :=
  ⟨by decide, rfl, rfl, by decide⟩

end Asmd
